import Mathlib

/-!
Shallow embedding of the EVAQUA glacier-runoff / flood-risk pipeline
(`src/evaqua.py`, `src/hru_generator.py`, `src/app.py`).

Numbers are modelled as rationals (`ℚ`); decimal constants of the source
are written as exact fractions (0.278 = 278/1000, -0.0065 = -65/10000).
Tables (pandas DataFrames) are modelled as lists of records, lookups by
`grid_id` as `List.find?`, and pandas left-merges as an explicit
`leftMerge` on lists.
-/

namespace Evaqua

/-- Degree-day factor for ice (mm/day/degC), constant `DEGREE_DAY_FACTOR_ICE`. -/
def DEGREE_DAY_FACTOR_ICE : ℚ := 8

/-- Degree-day factor for snow, constant `DEGREE_DAY_FACTOR_SNOW`. -/
def DEGREE_DAY_FACTOR_SNOW : ℚ := 4

/-- Base melt temperature threshold, constant `BASE_TEMP_THRESHOLD`. -/
def BASE_TEMP_THRESHOLD : ℚ := 0

/-- Risk classification table `RISK_LEVELS` (name, lower bound, upper bound),
in the fixed iteration order of the source dict; colors and labels are dropped
as they do not affect classification. -/
def RISK_LEVELS : List (String × ℚ × ℚ) :=
  [("bajo", 0, 1/4), ("medio", 1/4, 1/2), ("alto", 1/2, 3/4), ("critico", 3/4, 1)]

/-- The classification loop of `EVAQUACalculator._classify_risk`: walk the
table in order, return the first level whose half-open range contains the
score, and fall through to "critico". -/
def classifyLoop : List (String × ℚ × ℚ) → ℚ → String
  | [], _ => "critico"
  | (name, lo, hi) :: rest, s => if lo ≤ s ∧ s < hi then name else classifyLoop rest s

/-- `EVAQUACalculator._classify_risk(score)`. -/
def classifyRisk (score : ℚ) : String := classifyLoop RISK_LEVELS score

/-- The critical-banner count of `app.py`: number of rows whose
`risk_class` equals the literal string "critico". -/
def criticalCount (classes : List String) : ℕ :=
  (classes.filter (fun c => c == "critico")).length

/-- Runoff coefficient table `RUNOFF_COEFFICIENTS` keyed by slope class. -/
def RUNOFF_COEFFICIENTS : List (String × ℚ) :=
  [("muy_baja", 20/100), ("baja", 35/100), ("media", 50/100), ("alta", 70/100)]

/-- Dict access `RUNOFF_COEFFICIENTS[k]`; every key used by the source is
present, so the fallback 0 is never reached. -/
def runoffCoefficient (k : String) : ℚ := (RUNOFF_COEFFICIENTS.lookup k).getD 0

/-- One row of the HRU base table `grids_gdf` as produced by the HRU
generator and `assign_glaciers_to_hrus` (geometry dropped): the stable id,
the unit area, the pre-aggregated glacier area, and the optional
`elevation_mean` column (absent in the HRU pipeline, hence `none`). -/
structure Grid where
  grid_id : ℕ
  area_km2 : ℚ
  glacier_area_km2 : ℚ
  elevation_mean : Option ℚ

/-- One row of the topography table `topo_data`
(`get_topography_for_grids`), fields used downstream. -/
structure TopoRec where
  grid_id : ℕ
  elevation_mean : ℚ
  slope_mean : ℚ

/-- One row of the climate table `climate_data`, fields used downstream.
`elevation` is the model-grid elevation stored by `_process_meteo_json`;
`none` models a stored null (the `is not None` guard of `calculate_melt`). -/
structure ClimateRec where
  grid_id : ℕ
  temp_current : ℚ
  precip_24h : ℚ
  precip_72h : ℚ
  snow_24h : ℚ
  elevation : Option ℚ

/-- One glacier fragment of `glaciers_gdf` after intersection with the
grids: its grid assignment and its area in square meters. -/
structure GlacierFrag where
  grid_id : ℕ
  area_in_grid : ℚ

/-- One row of the melt table returned by `calculate_melt`. -/
structure MeltRec where
  grid_id : ℕ
  melt_rate_mm_day : ℚ
  temp_for_melt : ℚ
  glacier_area_km2 : ℚ
  snow_recent : Bool

/-- One row of the runoff table returned by `calculate_runoff`. -/
structure RunoffRec where
  grid_id : ℕ
  runoff_m3s : ℚ
  runoff_coeff : ℚ
  slope_percent : ℚ
  precip_intensity_mm_h : ℚ

/-- One row of the risk table returned by `calculate_flood_risk`. -/
structure RiskRec where
  grid_id : ℕ
  risk_score : ℚ
  risk_class : String
  melt_component : ℚ
  runoff_component : ℚ
  precip_component : ℚ

/-- One row of the 3-day projection table returned by
`calculate_projected_risk_3d`. -/
structure ProjRec where
  grid_id : ℕ
  melt_3d_mm : ℚ
  precip_3d_mm : ℚ
  water_total_3d_mm : ℚ
  risk_score_3d : ℚ
  risk_class_3d : String

/-- Lookup `climate_data[climate_data.grid_id == gid]` (first match). -/
def findClimate (climate : List ClimateRec) (gid : ℕ) : Option ClimateRec :=
  climate.find? (fun c => c.grid_id == gid)

/-- Lookup `topo_data[topo_data.grid_id == gid]` (first match). -/
def findTopo (topo : List TopoRec) (gid : ℕ) : Option TopoRec :=
  topo.find? (fun t => t.grid_id == gid)

/-- Lookup `grids_gdf[grids_gdf.grid_id == gid]` (first match). -/
def findGrid (grids : List Grid) (gid : ℕ) : Option Grid :=
  grids.find? (fun g => g.grid_id == gid)

/-- The value pattern `melt_row.iloc[0].melt_rate_mm_day if not
melt_row.empty else 0` shared by `calculate_flood_risk` and
`calculate_projected_risk_3d`. -/
def meltValOf (melt : List MeltRec) (gid : ℕ) : ℚ :=
  match melt.find? (fun m => m.grid_id == gid) with
  | some m => m.melt_rate_mm_day
  | none => 0

/-- The value pattern `runoff_row.iloc[0].runoff_m3s if not
runoff_row.empty else 0` shared by `calculate_flood_risk` and
`calculate_projected_risk_3d`. -/
def runoffValOf (runoff : List RunoffRec) (gid : ℕ) : ℚ :=
  match runoff.find? (fun r => r.grid_id == gid) with
  | some r => r.runoff_m3s
  | none => 0

/-- `get_climate_data`: one climate record per grid row, in order; the
fetched payload (success or zero-filled failure record) is captured by the
oracle `fetch`, and the grid id is written into the record afterwards,
mirroring `result[grid_id] = batch_ids[j]`. -/
def getClimateData (grids : List Grid) (fetch : ℕ → ClimateRec) : List ClimateRec :=
  grids.map (fun g => { fetch g.grid_id with grid_id := g.grid_id })

/-- `get_topography_for_grids`: per grid, a topography record on success,
nothing on a per-unit processing failure (the unit is omitted, not
zero-filled); the external lookup is the oracle `fetch`. -/
def getTopography (grids : List Grid) (fetch : ℕ → Option TopoRec) : List TopoRec :=
  grids.filterMap (fun g => (fetch g.grid_id).map (fun t => { t with grid_id := g.grid_id }))

/-- HRU elevation resolution of `calculate_melt`: start from 0, prefer the
`elevation_mean` column of the grid row when the grids table carries it,
otherwise fall back to a topo-data lookup by grid id. -/
def hruElevOf (grids : List Grid) (topo : List TopoRec) (gid : ℕ) : ℚ :=
  match findGrid grids gid with
  | some g =>
    match g.elevation_mean with
    | some e => e
    | none => match findTopo topo gid with | some t => t.elevation_mean | none => 0
  | none => match findTopo topo gid with | some t => t.elevation_mean | none => 0

/-- Lapse rate used by `calculate_melt` (-0.65 degC per 100 m). -/
def lapse_rate : ℚ := -(65/10000)

/-- Lapse-rate correction block of `calculate_melt`: the forecast
temperature is adjusted by `(hru_elev - model_elev) * lapse_rate` only when
the stored model elevation is not null and the HRU elevation is positive. -/
def adjustedTempOf (temp_current : ℚ) (model_elev : Option ℚ) (hru_elev : ℚ) : ℚ :=
  match model_elev with
  | some me => if hru_elev > 0 then temp_current + (hru_elev - me) * lapse_rate else temp_current
  | none => temp_current

/-- Degree-day step of `calculate_melt`: ice factor times the temperature
excess, overridden by the snow factor when snow fell in the last 24h. -/
def meltRateOf (temp_excess : ℚ) (snow_24h : ℚ) : ℚ :=
  if snow_24h > 0 then DEGREE_DAY_FACTOR_SNOW * temp_excess
  else DEGREE_DAY_FACTOR_ICE * temp_excess

/-- Glacier-area lookup of `calculate_melt`: prefer the pre-aggregated
`glacier_area_km2` of the grid row, else sum the fragment areas assigned to
this grid and convert square meters to square kilometers. -/
def glacierAreaOf (grids : List Grid) (glaciers : List GlacierFrag) (gid : ℕ) : ℚ :=
  match findGrid grids gid with
  | some g => g.glacier_area_km2
  | none => ((glaciers.filter (fun f => f.grid_id == gid)).map GlacierFrag.area_in_grid).sum / 1000000

/-- Loop body of `calculate_melt` for one climate record. -/
def meltRecOf (grids : List Grid) (glaciers : List GlacierFrag) (topo : List TopoRec)
    (c : ClimateRec) : MeltRec :=
  let hru_elev := hruElevOf grids topo c.grid_id
  let temp := adjustedTempOf c.temp_current c.elevation hru_elev
  let temp_excess := max 0 (temp - BASE_TEMP_THRESHOLD)
  { grid_id := c.grid_id
    melt_rate_mm_day := meltRateOf temp_excess c.snow_24h
    temp_for_melt := temp
    glacier_area_km2 := glacierAreaOf grids glaciers c.grid_id
    snow_recent := c.snow_24h > 0 }

/-- `calculate_melt`: one melt record per climate record. -/
def calculateMelt (grids : List Grid) (glaciers : List GlacierFrag) (topo : List TopoRec)
    (climate : List ClimateRec) : List MeltRec :=
  climate.map (meltRecOf grids glaciers topo)

/-- Slope-to-coefficient selection of `calculate_runoff`. -/
def runoffCoeffOfSlope (slope : ℚ) : ℚ :=
  if slope < 5 then runoffCoefficient "muy_baja"
  else if slope < 10 then runoffCoefficient "baja"
  else if slope < 20 then runoffCoefficient "media"
  else runoffCoefficient "alta"

/-- Coefficient choice of `calculate_runoff`: use the topography record
when present, else the "media" default. -/
def runoffCoeffOf (t : Option TopoRec) : ℚ :=
  match t with
  | some tr => runoffCoeffOfSlope tr.slope_mean
  | none => runoffCoefficient "media"

/-- Precipitation intensity of `calculate_runoff` (mm/h). -/
def intensityOf (precip_24h : ℚ) : ℚ := if precip_24h > 0 then precip_24h / 24 else 0

/-- Loop body of `calculate_runoff` for one grid row: skip the unit when it
has no climate record, else rational-method discharge
`Q = C * I * A * 0.278` with a 1.0 km2 floor on non-positive areas. -/
def runoffRecOf (topo : List TopoRec) (climate : List ClimateRec) (g : Grid) :
    Option RunoffRec :=
  match findClimate climate g.grid_id with
  | none => none
  | some c =>
    let runoff_coeff := runoffCoeffOf (findTopo topo g.grid_id)
    let intensity := intensityOf c.precip_24h
    let area_km2 := if g.area_km2 ≤ 0 then 1 else g.area_km2
    some { grid_id := g.grid_id
           runoff_m3s := runoff_coeff * intensity * area_km2 * (278/1000)
           runoff_coeff := runoff_coeff
           slope_percent := match findTopo topo g.grid_id with
                            | some t => t.slope_mean
                            | none => 0
           precip_intensity_mm_h := intensity }

/-- `calculate_runoff`: one runoff record per grid row that has a climate
record. -/
def calculateRunoff (grids : List Grid) (topo : List TopoRec) (climate : List ClimateRec) :
    List RunoffRec :=
  grids.filterMap (runoffRecOf topo climate)

/-- Score combination of `calculate_flood_risk`: dynamic weights chosen by
the melt value, then a weighted sum of the three normalized components. -/
def floodRiskScore (melt_val runoff_val precip_val : ℚ) : ℚ :=
  let w := if melt_val < 1/10 then ((5:ℚ)/100, (55:ℚ)/100, (40:ℚ)/100)
           else ((40:ℚ)/100, (40:ℚ)/100, (20:ℚ)/100)
  w.1 * min 1 (melt_val / 50) + w.2.1 * min 1 (runoff_val / 1000) + w.2.2 * min 1 (precip_val / 300)

/-- Loop body of `calculate_flood_risk` for one grid row. -/
def riskRecOf (melt : List MeltRec) (runoff : List RunoffRec) (climate : List ClimateRec)
    (g : Grid) : Option RiskRec :=
  match findClimate climate g.grid_id with
  | none => none
  | some c =>
    let melt_val := meltValOf melt g.grid_id
    let runoff_val := runoffValOf runoff g.grid_id
    let precip_val := c.precip_72h
    let risk_score := floodRiskScore melt_val runoff_val precip_val
    some { grid_id := g.grid_id
           risk_score := risk_score
           risk_class := classifyRisk risk_score
           melt_component := min 1 (melt_val / 50)
           runoff_component := min 1 (runoff_val / 1000)
           precip_component := min 1 (precip_val / 300) }

/-- `calculate_flood_risk`: one risk record per grid row that has a climate
record. -/
def calculateFloodRisk (grids : List Grid) (melt : List MeltRec) (runoff : List RunoffRec)
    (climate : List ClimateRec) : List RiskRec :=
  grids.filterMap (riskRecOf melt runoff climate)

/-- Loop body of `calculate_projected_risk_3d` for one grid row: 3-day
persistence scaling of melt and precipitation, wider normalization
thresholds, and the same classifier. -/
def projRecOf (melt : List MeltRec) (runoff : List RunoffRec) (climate : List ClimateRec)
    (g : Grid) : Option ProjRec :=
  match findClimate climate g.grid_id with
  | none => none
  | some c =>
    let melt_rate_day := meltValOf melt g.grid_id
    let runoff_m3s := runoffValOf runoff g.grid_id
    let melt_3d_mm := melt_rate_day * 3
    let precip_3d_mm := c.precip_24h * 3
    let melt_comp_3d := min 1 (melt_3d_mm / 150)
    let precip_comp_3d := min 1 (precip_3d_mm / 300)
    let runoff_comp_3d := min 1 (runoff_m3s / 1200)
    let risk_score_3d := (35:ℚ)/100 * melt_comp_3d + (35:ℚ)/100 * runoff_comp_3d
      + (30:ℚ)/100 * precip_comp_3d
    some { grid_id := g.grid_id
           melt_3d_mm := melt_3d_mm
           precip_3d_mm := precip_3d_mm
           water_total_3d_mm := melt_3d_mm + precip_3d_mm
           risk_score_3d := risk_score_3d
           risk_class_3d := classifyRisk risk_score_3d }

/-- `calculate_projected_risk_3d`: one projection record per grid row that
has a climate record. -/
def calculateProjectedRisk3d (grids : List Grid) (melt : List MeltRec)
    (runoff : List RunoffRec) (climate : List ClimateRec) : List ProjRec :=
  grids.filterMap (projRecOf melt runoff climate)

/-- Pandas left merge `left.merge(right, on=grid_id, how=left)` on lists:
every left row is paired with each right row of equal key, or with `none`
(pandas NaN columns) when no right row matches. -/
def leftMerge {α β : Type} (left : List α) (right : List β) (kl : α → ℕ) (kr : β → ℕ) :
    List (α × Option β) :=
  match left with
  | [] => []
  | a :: as =>
    (match right.filter (fun b => kr b == kl a) with
     | [] => [(a, none)]
     | ms => ms.map (fun b => (a, some b))) ++ leftMerge as right kl kr

/-- Row type of the fully merged result table: the base grid row paired
with the optional climate, topography, melt, runoff, risk and projection
columns in merge order. -/
def MergedRow : Type :=
  (((((Grid × Option ClimateRec) × Option TopoRec) × Option MeltRec) × Option RunoffRec)
    × Option RiskRec) × Option ProjRec

/-- Base grid row of a merged row. -/
def MergedRow.base (r : MergedRow) : Grid := r.1.1.1.1.1.1

/-- Melt column of a merged row. -/
def MergedRow.meltCol (r : MergedRow) : Option MeltRec := r.1.1.1.2

/-- Runoff column of a merged row. -/
def MergedRow.runoffCol (r : MergedRow) : Option RunoffRec := r.1.1.2

/-- Risk column of a merged row. -/
def MergedRow.riskCol (r : MergedRow) : Option RiskRec := r.1.2

/-- Step 4 of `run_full_analysis`: the melt table computed from the fetched
topography and climate tables. -/
def pipelineMelt (grids : List Grid) (glaciers : List GlacierFrag)
    (topoFetch : ℕ → Option TopoRec) (climFetch : ℕ → ClimateRec) : List MeltRec :=
  calculateMelt grids glaciers (getTopography grids topoFetch) (getClimateData grids climFetch)

/-- Step 5 of `run_full_analysis`: the runoff table computed from the
fetched topography and climate tables. -/
def pipelineRunoff (grids : List Grid) (topoFetch : ℕ → Option TopoRec)
    (climFetch : ℕ → ClimateRec) : List RunoffRec :=
  calculateRunoff grids (getTopography grids topoFetch) (getClimateData grids climFetch)

/-- Step 6 of `run_full_analysis`: the risk table computed from the melt,
runoff and climate tables. -/
def pipelineRisk (grids : List Grid) (glaciers : List GlacierFrag)
    (topoFetch : ℕ → Option TopoRec) (climFetch : ℕ → ClimateRec) : List RiskRec :=
  calculateFloodRisk grids (pipelineMelt grids glaciers topoFetch climFetch)
    (pipelineRunoff grids topoFetch climFetch) (getClimateData grids climFetch)

/-- Step 6.5 of `run_full_analysis`: the 3-day projection table. -/
def pipelineProj (grids : List Grid) (glaciers : List GlacierFrag)
    (topoFetch : ℕ → Option TopoRec) (climFetch : ℕ → ClimateRec) : List ProjRec :=
  calculateProjectedRisk3d grids (pipelineMelt grids glaciers topoFetch climFetch)
    (pipelineRunoff grids topoFetch climFetch) (getClimateData grids climFetch)

/-- Merge 1 of `run_full_analysis` step 7: climate onto the base table. -/
def mergedR1 (grids : List Grid) (climFetch : ℕ → ClimateRec) :
    List (Grid × Option ClimateRec) :=
  leftMerge grids (getClimateData grids climFetch) Grid.grid_id ClimateRec.grid_id

/-- Merge 2: topography onto the running result. -/
def mergedR2 (grids : List Grid) (topoFetch : ℕ → Option TopoRec)
    (climFetch : ℕ → ClimateRec) : List ((Grid × Option ClimateRec) × Option TopoRec) :=
  leftMerge (mergedR1 grids climFetch) (getTopography grids topoFetch)
    (fun p => p.1.grid_id) TopoRec.grid_id

/-- Merge 3: melt onto the running result. -/
def mergedR3 (grids : List Grid) (glaciers : List GlacierFrag)
    (topoFetch : ℕ → Option TopoRec) (climFetch : ℕ → ClimateRec) :
    List (((Grid × Option ClimateRec) × Option TopoRec) × Option MeltRec) :=
  leftMerge (mergedR2 grids topoFetch climFetch)
    (pipelineMelt grids glaciers topoFetch climFetch) (fun p => p.1.1.grid_id) MeltRec.grid_id

/-- Merge 4: runoff onto the running result. -/
def mergedR4 (grids : List Grid) (glaciers : List GlacierFrag)
    (topoFetch : ℕ → Option TopoRec) (climFetch : ℕ → ClimateRec) :
    List ((((Grid × Option ClimateRec) × Option TopoRec) × Option MeltRec) × Option RunoffRec) :=
  leftMerge (mergedR3 grids glaciers topoFetch climFetch)
    (pipelineRunoff grids topoFetch climFetch) (fun p => p.1.1.1.grid_id) RunoffRec.grid_id

/-- Merge 5: risk onto the running result. -/
def mergedR5 (grids : List Grid) (glaciers : List GlacierFrag)
    (topoFetch : ℕ → Option TopoRec) (climFetch : ℕ → ClimateRec) :
    List (((((Grid × Option ClimateRec) × Option TopoRec) × Option MeltRec)
      × Option RunoffRec) × Option RiskRec) :=
  leftMerge (mergedR4 grids glaciers topoFetch climFetch)
    (pipelineRisk grids glaciers topoFetch climFetch) (fun p => p.1.1.1.1.grid_id)
    RiskRec.grid_id

/-- Merge section of `run_full_analysis` (steps 2 to 7): compute the stage
tables from the base grid table and the two external oracles, then
left-merge climate, topography, melt, runoff, risk and projection onto a
copy of the base table by `grid_id` (merge 6 closes the chain). -/
def runFullAnalysisMerged (grids : List Grid) (glaciers : List GlacierFrag)
    (topoFetch : ℕ → Option TopoRec) (climFetch : ℕ → ClimateRec) : List MergedRow :=
  leftMerge (mergedR5 grids glaciers topoFetch climFetch)
    (pipelineProj grids glaciers topoFetch climFetch) (fun p => p.1.1.1.1.1.grid_id)
    ProjRec.grid_id

/-- Division decision of `HRUGenerator.generate_hrus` for one sub-basin,
with the generator parameters explicit: projected area against the small
and medium cutoffs, then glacier count or glacier density. -/
def nDivisions (small_km2 medium_km2 glacier_density_threshold : ℚ)
    (area_km2 : ℚ) (count : ℕ) (density : ℚ) : ℕ :=
  if area_km2 < small_km2 then 1
  else if area_km2 < medium_km2 then
    if count > 0 then 2 else 1
  else
    if density > glacier_density_threshold then 3
    else if count > 0 then 2
    else 2

/-- A value stored in a climate dict: a number or a list of numbers. -/
inductive JVal where
  | num : ℚ → JVal
  | nums : List ℚ → JVal
deriving DecidableEq

/-- `EVAQUACalculator._empty_climate_dict`, key by key in source order. -/
def emptyClimateDict : List (String × JVal) :=
  [("temp_current", JVal.num 0), ("temp_avg_today", JVal.num 0),
   ("temp_max_today", JVal.num 0), ("precip_24h", JVal.num 0),
   ("precip_72h", JVal.num 0), ("rain_24h", JVal.num 0),
   ("snow_24h", JVal.num 0), ("snow_72h", JVal.num 0),
   ("radiation_current", JVal.num 0), ("wind_speed_current", JVal.num 0),
   ("rain_intensity_max", JVal.num 0),
   ("temp_series", JVal.nums []), ("precip_series", JVal.nums [])]

/-- The keys of the climate record built by the success branch of
`_process_meteo_json`, in source order: this is the climate-record schema. -/
def successClimateKeys : List String :=
  ["temp_current", "temp_avg_today", "temp_max_today", "precip_24h",
   "precip_72h", "rain_24h", "snow_24h", "snow_72h", "radiation_current",
   "wind_speed_current", "rain_intensity_max", "elevation",
   "temp_series", "precip_series"]

/-- Failure path of `_fetch_openmeteo_batch`: on any batch exception it
returns one `_process_meteo_json({})` result, i.e. one empty climate dict,
per requested location. -/
def fetchOpenMeteoBatchFailure (lats : List ℚ) : List (List (String × JVal)) :=
  lats.map (fun _ => emptyClimateDict)

/-- The grid ids of the base table, in row order. -/
def gridIds (grids : List Grid) : List ℕ := grids.map Grid.grid_id

/-- The base-table grid ids of the merged result, in row order. -/
def mergedBaseIds (rows : List MergedRow) : List ℕ :=
  rows.map (fun r => (MergedRow.base r).grid_id)

/-- A two-row base table used to instantiate universal theorems. -/
def witnessGrids : List Grid :=
  [{ grid_id := 1, area_km2 := 10, glacier_area_km2 := 0, elevation_mean := none },
   { grid_id := 2, area_km2 := 0, glacier_area_km2 := 1, elevation_mean := none }]

/-- A topography oracle that always fails (every unit omitted). -/
def witnessTopoFetch : ℕ → Option TopoRec := fun _ => none

/-- A climate oracle returning a fixed mild forecast. -/
def witnessClimFetch : ℕ → ClimateRec :=
  fun gid => { grid_id := gid, temp_current := 6, precip_24h := 0, precip_72h := 0,
               snow_24h := 0, elevation := none }

end Evaqua

namespace Evaqua

/-- Unfolding of the classifier into its nested range tests. -/
theorem classifyRisk_unfold (s : ℚ) :
    classifyRisk s =
      if 0 ≤ s ∧ s < 1/4 then "bajo"
      else if 1/4 ≤ s ∧ s < 1/2 then "medio"
      else if 1/2 ≤ s ∧ s < 3/4 then "alto"
      else if 3/4 ≤ s ∧ s < 1 then "critico"
      else "critico" := rfl

/-- Scores in the first range classify as "bajo". -/
theorem classify_bajo (s : ℚ) (h0 : 0 ≤ s) (h1 : s < 1/4) : classifyRisk s = "bajo" := by
  rw [classifyRisk_unfold, if_pos ⟨h0, h1⟩]

/-- Scores in the second range classify as "medio". -/
theorem classify_medio (s : ℚ) (h0 : 1/4 ≤ s) (h1 : s < 1/2) : classifyRisk s = "medio" := by
  rw [classifyRisk_unfold, if_neg (by push_neg; intro _; linarith), if_pos ⟨h0, h1⟩]

/-- Scores in the third range classify as "alto". -/
theorem classify_alto (s : ℚ) (h0 : 1/2 ≤ s) (h1 : s < 3/4) : classifyRisk s = "alto" := by
  rw [classifyRisk_unfold, if_neg (by push_neg; intro _; linarith),
    if_neg (by push_neg; intro _; linarith), if_pos ⟨h0, h1⟩]

/-- Scores in the fourth range classify as "critico". -/
theorem classify_critico_range (s : ℚ) (h0 : 3/4 ≤ s) (h1 : s < 1) :
    classifyRisk s = "critico" := by
  rw [classifyRisk_unfold, if_neg (by push_neg; intro _; linarith),
    if_neg (by push_neg; intro _; linarith), if_neg (by push_neg; intro _; linarith),
    if_pos ⟨h0, h1⟩]

/-- Scores matching no range of the table fall through to "critico". -/
theorem classify_fallthrough (s : ℚ) (h : s < 0 ∨ 1 ≤ s) : classifyRisk s = "critico" := by
  rcases h with h | h <;>
  · rw [classifyRisk_unfold, if_neg (by push_neg; intro h0; linarith),
      if_neg (by push_neg; intro h0; linarith), if_neg (by push_neg; intro h0; linarith),
      if_neg (by push_neg; intro h0; linarith)]

/-- A row classified "critico" is counted by the critical banner. -/
theorem criticalCount_single (cls : String) (h : cls = "critico") :
    criticalCount [cls] = 1 := by subst h; rfl

/-- C1: the risk classifier maps [0, 0.25) to "bajo", [0.25, 0.50) to
"medio", [0.50, 0.75) to "alto" and [0.75, 1) to "critico", any score at or
above 1 and any score matching no range of the table falls through to
"critico", and the nine-point test vector evaluates to the expected
classes. -/
theorem c1_classify_risk_table :
    (∀ s : ℚ, 0 ≤ s → s < 1/4 → classifyRisk s = "bajo") ∧
    (∀ s : ℚ, 1/4 ≤ s → s < 1/2 → classifyRisk s = "medio") ∧
    (∀ s : ℚ, 1/2 ≤ s → s < 3/4 → classifyRisk s = "alto") ∧
    (∀ s : ℚ, 3/4 ≤ s → s < 1 → classifyRisk s = "critico") ∧
    (∀ s : ℚ, 1 ≤ s → classifyRisk s = "critico") ∧
    (∀ s : ℚ, (∀ r ∈ RISK_LEVELS, ¬ (r.2.1 ≤ s ∧ s < r.2.2)) → classifyRisk s = "critico") ∧
    (classifyRisk 0 = "bajo" ∧ classifyRisk (24999/100000) = "bajo" ∧
     classifyRisk (1/4) = "medio" ∧ classifyRisk (49999/100000) = "medio" ∧
     classifyRisk (1/2) = "alto" ∧ classifyRisk (74999/100000) = "alto" ∧
     classifyRisk (3/4) = "critico" ∧ classifyRisk (99999/100000) = "critico" ∧
     classifyRisk (6/5) = "critico") := by
  have hfall : ∀ s : ℚ, (∀ r ∈ RISK_LEVELS, ¬ (r.2.1 ≤ s ∧ s < r.2.2)) →
      classifyRisk s = "critico" := by
    intro s h
    have hb : ¬ (0 ≤ s ∧ s < 1/4) := by simpa using h ("bajo", 0, 1/4) (by simp [RISK_LEVELS])
    have hm : ¬ ((1:ℚ)/4 ≤ s ∧ s < 1/2) := by
      simpa using h ("medio", 1/4, 1/2) (by simp [RISK_LEVELS])
    have ha : ¬ ((1:ℚ)/2 ≤ s ∧ s < 3/4) := by
      simpa using h ("alto", 1/2, 3/4) (by simp [RISK_LEVELS])
    have hc : ¬ ((3:ℚ)/4 ≤ s ∧ s < 1) := by
      simpa using h ("critico", 3/4, 1) (by simp [RISK_LEVELS])
    rcases lt_or_le s 0 with h0 | h0
    · exact classify_fallthrough s (Or.inl h0)
    · rcases lt_or_le s (1/4) with h1 | h1
      · exact absurd ⟨h0, h1⟩ hb
      · rcases lt_or_le s (1/2) with h2 | h2
        · exact absurd ⟨h1, h2⟩ hm
        · rcases lt_or_le s (3/4) with h3 | h3
          · exact absurd ⟨h2, h3⟩ ha
          · rcases lt_or_le s 1 with h4 | h4
            · exact absurd ⟨h3, h4⟩ hc
            · exact classify_fallthrough s (Or.inr h4)
  refine ⟨classify_bajo, classify_medio, classify_alto, classify_critico_range,
    fun s h => classify_fallthrough s (Or.inr h), hfall,
    classify_bajo 0 (by norm_num) (by norm_num),
    classify_bajo _ (by norm_num) (by norm_num),
    classify_medio _ (by norm_num) (by norm_num),
    classify_medio _ (by norm_num) (by norm_num),
    classify_alto _ (by norm_num) (by norm_num),
    classify_alto _ (by norm_num) (by norm_num),
    classify_critico_range _ (by norm_num) (by norm_num),
    classify_critico_range _ (by norm_num) (by norm_num),
    classify_fallthrough _ (Or.inr (by norm_num))⟩

/-- C1 witness: the first range statement applied at the concrete score
0.1. -/
theorem c1_classify_risk_table_witness : classifyRisk (1/10) = "bajo" :=
  c1_classify_risk_table.1 (1/10) (by norm_num) (by norm_num)

/-- C9 counterexample: the classifier does emit the literal "critico" (for
example at score 0.8), and the dashboard banner comparison against
"critico" then counts that unit. -/
theorem c9_counterexample_critico_emitted :
    classifyRisk (4/5) = "critico" ∧ criticalCount [classifyRisk (4/5)] = 1 := by
  have h : classifyRisk (4/5) = "critico" :=
    classify_critico_range _ (by norm_num) (by norm_num)
  exact ⟨h, criticalCount_single _ h⟩

/-- C9 amended: the classifier emits "critico" exactly for scores below 0
or at or above 0.75, and the dashboard banner comparison against "critico"
matches exactly those units. -/
theorem c9_amended_critico_characterization :
    (∀ s : ℚ, classifyRisk s = "critico" ↔ (s < 0 ∨ 3/4 ≤ s)) ∧
    (∀ s : ℚ, s < 0 ∨ 3/4 ≤ s → criticalCount [classifyRisk s] = 1) := by
  have hiff : ∀ s : ℚ, classifyRisk s = "critico" ↔ (s < 0 ∨ 3/4 ≤ s) := by
    intro s
    constructor
    · intro h
      by_contra hn
      push_neg at hn
      obtain ⟨h0, h1⟩ := hn
      rcases lt_or_le s (1/4) with h2 | h2
      · rw [classify_bajo s h0 h2] at h; exact absurd h (by decide)
      · rcases lt_or_le s (1/2) with h3 | h3
        · rw [classify_medio s h2 h3] at h; exact absurd h (by decide)
        · rw [classify_alto s h3 h1] at h; exact absurd h (by decide)
    · intro h
      rcases h with h | h
      · exact classify_fallthrough s (Or.inl h)
      · rcases lt_or_le s 1 with h1 | h1
        · exact classify_critico_range s h h1
        · exact classify_fallthrough s (Or.inr h1)
  exact ⟨hiff, fun s h => criticalCount_single _ ((hiff s).mpr h)⟩

/-- C9 amended witness: a score of 0.8 is counted by the banner. -/
theorem c9_amended_critico_characterization_witness :
    criticalCount [classifyRisk (4/5)] = 1 :=
  c9_amended_critico_characterization.2 (4/5) (Or.inr (by norm_num))

/-- C10: every strictly negative score matches no range of the table and
falls through to "critico". -/
theorem c10_negative_score_critico :
    ∀ s : ℚ, s < 0 → classifyRisk s = "critico" :=
  fun s h => classify_fallthrough s (Or.inl h)

/-- C10 witness: the negative-score statement applied at -1. -/
theorem c10_negative_score_critico_witness : classifyRisk (-1) = "critico" :=
  c10_negative_score_critico (-1) (by norm_num)

/-- C3: the degree-day melt model applies the lapse-rate correction exactly
when the model elevation is stored and the HRU elevation is positive, uses
factor 8 normally and 4 under recent snow on the clamped temperature
excess, every climate record yields a melt record, and the three numeric
scenarios of the spec evaluate as stated. -/
theorem c3_calculate_melt :
    (∀ tc me hruE : ℚ, 0 < hruE →
      adjustedTempOf tc (some me) hruE = tc + (hruE - me) * (-(65/10000))) ∧
    (∀ (tc : ℚ) (me : Option ℚ) (hruE : ℚ), me = none ∨ hruE ≤ 0 →
      adjustedTempOf tc me hruE = tc) ∧
    (∀ t snow : ℚ, snow ≤ 0 →
      meltRateOf (max 0 (t - BASE_TEMP_THRESHOLD)) snow = 8 * max 0 (t - 0)) ∧
    (∀ t snow : ℚ, 0 < snow →
      meltRateOf (max 0 (t - BASE_TEMP_THRESHOLD)) snow = 4 * max 0 (t - 0)) ∧
    (∀ (grids : List Grid) (glaciers : List GlacierFrag) (topo : List TopoRec)
       (climate : List ClimateRec) (c : ClimateRec), c ∈ climate →
      meltRecOf grids glaciers topo c ∈ calculateMelt grids glaciers topo climate ∧
      (meltRecOf grids glaciers topo c).melt_rate_mm_day =
        meltRateOf (max 0 (adjustedTempOf c.temp_current c.elevation
          (hruElevOf grids topo c.grid_id) - BASE_TEMP_THRESHOLD)) c.snow_24h) ∧
    (meltRecOf [] [] [] ⟨7, 6, 0, 0, 0, none⟩).melt_rate_mm_day = 48 ∧
    (meltRecOf [] [] [] ⟨7, 6, 0, 0, 1, none⟩).melt_rate_mm_day = 24 ∧
    (meltRecOf [⟨7, 1, 0, some 2500⟩] [] [] ⟨7, 4, 0, 0, 0, some 500⟩).temp_for_melt = -9 ∧
    (meltRecOf [⟨7, 1, 0, some 2500⟩] [] [] ⟨7, 4, 0, 0, 0, some 500⟩).melt_rate_mm_day = 0 := by
  refine ⟨?_, ?_, ?_, ?_, ?_, ?_, ?_, ?_, ?_⟩
  · intro tc me hruE h
    simp only [adjustedTempOf, lapse_rate]
    rw [if_pos h]
  · intro tc me hruE h
    rcases h with h | h
    · subst h; rfl
    · cases me with
      | none => rfl
      | some v => simp only [adjustedTempOf]; rw [if_neg (not_lt.mpr h)]
  · intro t snow h
    simp only [meltRateOf, DEGREE_DAY_FACTOR_ICE, BASE_TEMP_THRESHOLD]
    rw [if_neg (not_lt.mpr h)]
  · intro t snow h
    simp only [meltRateOf, DEGREE_DAY_FACTOR_SNOW, BASE_TEMP_THRESHOLD]
    rw [if_pos h]
  · intro grids glaciers topo climate c hc
    exact ⟨List.mem_map_of_mem _ hc, rfl⟩
  · norm_num [meltRecOf, hruElevOf, findGrid, findTopo, adjustedTempOf, meltRateOf,
      BASE_TEMP_THRESHOLD, DEGREE_DAY_FACTOR_ICE, List.find?, max_def]
  · norm_num [meltRecOf, hruElevOf, findGrid, findTopo, adjustedTempOf, meltRateOf,
      BASE_TEMP_THRESHOLD, DEGREE_DAY_FACTOR_SNOW, List.find?, max_def]
  · norm_num [meltRecOf, hruElevOf, findGrid, findTopo, adjustedTempOf, lapse_rate,
      List.find?]
  · norm_num [meltRecOf, hruElevOf, findGrid, findTopo, adjustedTempOf, meltRateOf,
      lapse_rate, BASE_TEMP_THRESHOLD, DEGREE_DAY_FACTOR_ICE, List.find?, max_def]

/-- C3 witness: the lapse-rate statement applied at model elevation 500,
HRU elevation 2500 and base temperature 4. -/
theorem c3_calculate_melt_witness :
    adjustedTempOf 4 (some 500) 2500 = 4 + (2500 - 500) * (-(65/10000)) :=
  c3_calculate_melt.1 4 500 2500 (by norm_num)

/-- C4: the flood-risk score uses rain-dominated weights 0.05/0.55/0.40
when the melt value is below 0.1 mm/day and glacier-active weights
0.40/0.40/0.20 otherwise, the per-unit record carries exactly that score,
and the two numeric scenarios of the spec evaluate as stated. -/
theorem c4_flood_risk_weights :
    (∀ m r p : ℚ, m < 1/10 → floodRiskScore m r p =
      5/100 * min 1 (m/50) + 55/100 * min 1 (r/1000) + 40/100 * min 1 (p/300)) ∧
    (∀ m r p : ℚ, 1/10 ≤ m → floodRiskScore m r p =
      40/100 * min 1 (m/50) + 40/100 * min 1 (r/1000) + 20/100 * min 1 (p/300)) ∧
    (∀ (melt : List MeltRec) (runoff : List RunoffRec) (climate : List ClimateRec)
       (g : Grid) (c : ClimateRec), findClimate climate g.grid_id = some c →
      (riskRecOf melt runoff climate g).map RiskRec.risk_score =
        some (floodRiskScore (meltValOf melt g.grid_id) (runoffValOf runoff g.grid_id)
          c.precip_72h)) ∧
    floodRiskScore (5/100) 500 150 = 9501/20000 ∧
    floodRiskScore 5 500 150 = 17/50 := by
  refine ⟨?_, ?_, ?_, ?_, ?_⟩
  · intro m r p h
    simp only [floodRiskScore]
    rw [if_pos h]
  · intro m r p h
    simp only [floodRiskScore]
    rw [if_neg (not_lt.mpr h)]
  · intro melt runoff climate g c h
    simp [riskRecOf, h]
  · norm_num [floodRiskScore, min_def]
  · norm_num [floodRiskScore, min_def]

/-- C4 witness: the rain-dominated branch applied at melt 0.05, runoff 500
and 72h precipitation 150. -/
theorem c4_flood_risk_weights_witness :
    floodRiskScore (5/100) 500 150 =
      5/100 * min 1 ((5/100)/50) + 55/100 * min 1 (500/1000) + 40/100 * min 1 (150/300) :=
  c4_flood_risk_weights.1 (5/100) 500 150 (by norm_num)

/-- C5: the rational-method runoff uses the slope-selected coefficient
(default "media" without topography), intensity precip over 24 clamped at
0, the 1.0 km2 area floor, the product formula Q = C I A 0.278, and the
numeric scenario of the spec evaluates to exactly 1.946. -/
theorem c5_calculate_runoff :
    (∀ sl : ℚ, sl < 5 → runoffCoeffOfSlope sl = 20/100) ∧
    (∀ sl : ℚ, 5 ≤ sl → sl < 10 → runoffCoeffOfSlope sl = 35/100) ∧
    (∀ sl : ℚ, 10 ≤ sl → sl < 20 → runoffCoeffOfSlope sl = 50/100) ∧
    (∀ sl : ℚ, 20 ≤ sl → runoffCoeffOfSlope sl = 70/100) ∧
    runoffCoeffOf none = 50/100 ∧
    (∀ p : ℚ, 0 < p → intensityOf p = p / 24) ∧
    (∀ p : ℚ, p ≤ 0 → intensityOf p = 0) ∧
    (∀ (topo : List TopoRec) (climate : List ClimateRec) (g : Grid) (c : ClimateRec),
      findClimate climate g.grid_id = some c →
      (runoffRecOf topo climate g).map RunoffRec.runoff_m3s =
        some (runoffCoeffOf (findTopo topo g.grid_id) * intensityOf c.precip_24h *
          (if g.area_km2 ≤ 0 then 1 else g.area_km2) * (278/1000))) ∧
    (runoffRecOf [⟨1, 1000, 8⟩] [⟨1, 0, 48, 0, 0, none⟩] ⟨1, 10, 0, none⟩).map
      RunoffRec.runoff_m3s = some (973/500) := by
  refine ⟨?_, ?_, ?_, ?_, ?_, ?_, ?_, ?_, ?_⟩
  · intro sl h
    simp only [runoffCoeffOfSlope]
    rw [if_pos h]; rfl
  · intro sl h0 h1
    simp only [runoffCoeffOfSlope]
    rw [if_neg (not_lt.mpr h0), if_pos h1]; rfl
  · intro sl h0 h1
    simp only [runoffCoeffOfSlope]
    rw [if_neg (not_lt.mpr (by linarith)), if_neg (not_lt.mpr h0), if_pos h1]; rfl
  · intro sl h
    simp only [runoffCoeffOfSlope]
    rw [if_neg (not_lt.mpr (by linarith)), if_neg (not_lt.mpr (by linarith)),
      if_neg (not_lt.mpr h)]; rfl
  · rfl
  · intro p h
    simp only [intensityOf]
    rw [if_pos h]
  · intro p h
    simp only [intensityOf]
    rw [if_neg (not_lt.mpr h)]
  · intro topo climate g c h
    simp [runoffRecOf, h]
  · have hb : runoffCoefficient "baja" = 35/100 := rfl
    norm_num [runoffRecOf, runoffCoeffOf, runoffCoeffOfSlope, hb, findClimate, findTopo,
      intensityOf, List.find?]

/-- C5 witness: the 5-to-10 degree coefficient branch applied at slope 8. -/
theorem c5_calculate_runoff_witness : runoffCoeffOfSlope 8 = 35/100 :=
  c5_calculate_runoff.2.1 8 (by norm_num) (by norm_num)

/-- C6: the HRU division table with parameters 50/200/5: small basins give
1 unit regardless of glaciers, medium basins give 1 or 2 units by glacier
presence, large basins give 3 units above 5 percent glacier density and 2
otherwise, and the five scenarios of the spec evaluate as stated. -/
theorem c6_hru_division_table :
    (∀ (a : ℚ) (c : ℕ) (d : ℚ), a < 50 → nDivisions 50 200 5 a c d = 1) ∧
    (∀ (a d : ℚ), 50 ≤ a → a < 200 → nDivisions 50 200 5 a 0 d = 1) ∧
    (∀ (a : ℚ) (c : ℕ) (d : ℚ), 50 ≤ a → a < 200 → 0 < c → nDivisions 50 200 5 a c d = 2) ∧
    (∀ (a : ℚ) (c : ℕ) (d : ℚ), 200 ≤ a → 5 < d → nDivisions 50 200 5 a c d = 3) ∧
    (∀ (a : ℚ) (c : ℕ) (d : ℚ), 200 ≤ a → d ≤ 5 → nDivisions 50 200 5 a c d = 2) ∧
    nDivisions 50 200 5 40 3 10 = 1 ∧
    nDivisions 50 200 5 120 0 0 = 1 ∧
    nDivisions 50 200 5 120 1 (1/2) = 2 ∧
    nDivisions 50 200 5 300 4 6 = 3 ∧
    nDivisions 50 200 5 300 4 5 = 2 ∧
    nDivisions 50 200 5 300 0 0 = 2 := by
  refine ⟨?_, ?_, ?_, ?_, ?_, ?_, ?_, ?_, ?_, ?_, ?_⟩
  · intro a c d h
    simp only [nDivisions]
    rw [if_pos h]
  · intro a d h0 h1
    simp only [nDivisions]
    rw [if_neg (not_lt.mpr h0), if_pos h1, if_neg (by omega)]
  · intro a c d h0 h1 h2
    simp only [nDivisions]
    rw [if_neg (not_lt.mpr h0), if_pos h1, if_pos h2]
  · intro a c d h0 h1
    simp only [nDivisions]
    rw [if_neg (not_lt.mpr (by linarith)), if_neg (not_lt.mpr h0), if_pos h1]
  · intro a c d h0 h1
    simp only [nDivisions]
    rw [if_neg (not_lt.mpr (by linarith)), if_neg (not_lt.mpr h0),
      if_neg (not_lt.mpr h1), ite_self]
  · norm_num [nDivisions]
  · norm_num [nDivisions]
  · norm_num [nDivisions]
  · norm_num [nDivisions]
  · norm_num [nDivisions]
  · norm_num [nDivisions]

/-- C6 witness: the small-basin statement applied at area 40 with 3
glaciers and density 10. -/
theorem c6_hru_division_table_witness : nDivisions 50 200 5 40 3 10 = 1 :=
  c6_hru_division_table.1 40 3 10 (by norm_num)

/-- C7: for every unit with a climate record the 3-day projection scales
melt and 24h precipitation by exactly 3, totals them, scores with weights
0.35/0.35/0.30 over the widened thresholds 150/1200/300, and classifies
with the shared classifier. -/
theorem c7_projected_risk_3d :
    ∀ (melt : List MeltRec) (runoff : List RunoffRec) (climate : List ClimateRec)
      (g : Grid) (c : ClimateRec), findClimate climate g.grid_id = some c →
      (projRecOf melt runoff climate g).map ProjRec.melt_3d_mm =
        some (3 * meltValOf melt g.grid_id) ∧
      (projRecOf melt runoff climate g).map ProjRec.precip_3d_mm =
        some (3 * c.precip_24h) ∧
      (projRecOf melt runoff climate g).map ProjRec.water_total_3d_mm =
        some (3 * meltValOf melt g.grid_id + 3 * c.precip_24h) ∧
      (projRecOf melt runoff climate g).map ProjRec.risk_score_3d =
        some (35/100 * min 1 (3 * meltValOf melt g.grid_id / 150) +
              35/100 * min 1 (runoffValOf runoff g.grid_id / 1200) +
              30/100 * min 1 (3 * c.precip_24h / 300)) ∧
      (projRecOf melt runoff climate g).map ProjRec.risk_class_3d =
        some (classifyRisk (35/100 * min 1 (3 * meltValOf melt g.grid_id / 150) +
              35/100 * min 1 (runoffValOf runoff g.grid_id / 1200) +
              30/100 * min 1 (3 * c.precip_24h / 300))) := by
  intro melt runoff climate g c h
  have h3 : ∀ x : ℚ, x * 3 = 3 * x := fun x => mul_comm x 3
  refine ⟨?_, ?_, ?_, ?_, ?_⟩ <;>
    simp [projRecOf, h, h3]

/-- C7 witness: the projection statement applied to a singleton pipeline
with one unit whose climate record exists. -/
theorem c7_projected_risk_3d_witness :
    (projRecOf [] [] [⟨1, 0, 7, 0, 0, none⟩] ⟨1, 1, 0, none⟩).map ProjRec.melt_3d_mm =
      some (3 * meltValOf [] 1) :=
  (c7_projected_risk_3d [] [] [⟨1, 0, 7, 0, 0, none⟩] ⟨1, 1, 0, none⟩
    ⟨1, 0, 7, 0, 0, none⟩ rfl).1

/-- C8 counterexample: the zero-filled failure climate record omits the
model-grid elevation key, which the success-path schema includes. -/
theorem c8_counterexample_elevation_absent :
    emptyClimateDict.lookup "elevation" = none ∧ "elevation" ∈ successClimateKeys := by
  constructor
  · rfl
  · simp [successClimateKeys]

/-- C8 amended: a failed batch fetch still yields one climate record per
requested location, each equal to the zero-filled record, every schema
field except the model-grid elevation is present with value zero or the
empty list, and the elevation key is absent from the failure record. -/
theorem c8_amended_failure_defaults :
    (∀ lats : List ℚ, (fetchOpenMeteoBatchFailure lats).length = lats.length) ∧
    (∀ (lats : List ℚ) (r : List (String × JVal)), r ∈ fetchOpenMeteoBatchFailure lats →
      r = emptyClimateDict ∧ r ≠ []) ∧
    (∀ k ∈ successClimateKeys, k ≠ "elevation" →
      ∃ v, emptyClimateDict.lookup k = some v ∧ (v = JVal.num 0 ∨ v = JVal.nums [])) ∧
    emptyClimateDict.lookup "elevation" = none := by
  refine ⟨?_, ?_, ?_, rfl⟩
  · intro lats
    simp [fetchOpenMeteoBatchFailure]
  · intro lats r hr
    simp [fetchOpenMeteoBatchFailure] at hr
    rcases hr with ⟨-, rfl⟩
    exact ⟨rfl, by simp [emptyClimateDict]⟩
  · intro k hk hne
    simp only [successClimateKeys, List.mem_cons, List.not_mem_nil, or_false] at hk
    rcases hk with rfl | rfl | rfl | rfl | rfl | rfl | rfl | rfl | rfl | rfl | rfl | rfl | rfl | rfl
    · exact ⟨JVal.num 0, rfl, Or.inl rfl⟩
    · exact ⟨JVal.num 0, rfl, Or.inl rfl⟩
    · exact ⟨JVal.num 0, rfl, Or.inl rfl⟩
    · exact ⟨JVal.num 0, rfl, Or.inl rfl⟩
    · exact ⟨JVal.num 0, rfl, Or.inl rfl⟩
    · exact ⟨JVal.num 0, rfl, Or.inl rfl⟩
    · exact ⟨JVal.num 0, rfl, Or.inl rfl⟩
    · exact ⟨JVal.num 0, rfl, Or.inl rfl⟩
    · exact ⟨JVal.num 0, rfl, Or.inl rfl⟩
    · exact ⟨JVal.num 0, rfl, Or.inl rfl⟩
    · exact ⟨JVal.num 0, rfl, Or.inl rfl⟩
    · exact absurd rfl hne
    · exact ⟨JVal.nums [], rfl, Or.inr rfl⟩
    · exact ⟨JVal.nums [], rfl, Or.inr rfl⟩

/-- C8 amended witness: the schema-field statement applied at the key
temp_current. -/
theorem c8_amended_failure_defaults_witness :
    ∃ v, emptyClimateDict.lookup "temp_current" = some v ∧
      (v = JVal.num 0 ∨ v = JVal.nums []) :=
  c8_amended_failure_defaults.2.2.1 "temp_current" (by simp [successClimateKeys])
    (by simp)

/-- When the right-table keys are pairwise distinct, at most one right row
matches any key. -/
theorem filter_key_length_le_one {β : Type} (right : List β) (kr : β → ℕ) (k : ℕ)
    (h : (right.map kr).Nodup) :
    (right.filter (fun b => kr b == k)).length ≤ 1 := by
  induction right with
  | nil => simp
  | cons b bs ih =>
    rw [List.map_cons, List.nodup_cons] at h
    rw [List.filter_cons]
    by_cases hb : (kr b == k) = true
    · rw [if_pos hb]
      have hk : kr b = k := by simpa using hb
      have hnil : bs.filter (fun x => kr x == k) = [] := by
        rw [List.filter_eq_nil_iff]
        intro x hx hpx
        have hxk : kr x = k := by simpa using hpx
        exact h.1 (List.mem_map.mpr ⟨x, hx, by rw [hxk, hk]⟩)
      rw [hnil]
      simp
    · rw [if_neg hb]
      exact ih h.2

/-- A left merge against a right table with distinct keys keeps exactly the
left rows: mapping the left key over the merge returns the left keys. -/
theorem leftMerge_map_key {α β : Type} (left : List α) (right : List β) (kl : α → ℕ)
    (kr : β → ℕ) (h : (right.map kr).Nodup) :
    (leftMerge left right kl kr).map (fun p => kl p.1) = left.map kl := by
  induction left with
  | nil => rfl
  | cons a as ih =>
    rcases hm : right.filter (fun b => kr b == kl a) with _ | ⟨b, ms⟩
    · simp only [leftMerge]
      rw [hm]
      simp [ih]
    · have hlen := filter_key_length_le_one right kr (kl a) h
      rw [hm] at hlen
      have hms : ms = [] := by
        cases ms with
        | nil => rfl
        | cons c cs => simp at hlen
      subst hms
      simp only [leftMerge]
      rw [hm]
      simp [ih]

/-- Every merged row's left component is a row of the left table. -/
theorem leftMerge_mem_fst {α β : Type} (left : List α) (right : List β) (kl : α → ℕ)
    (kr : β → ℕ) (p : α × Option β) (hp : p ∈ leftMerge left right kl kr) : p.1 ∈ left := by
  induction left with
  | nil => simp [leftMerge] at hp
  | cons a as ih =>
    simp only [leftMerge] at hp
    rw [List.mem_append] at hp
    rcases hp with hp | hp
    · have hpa : p.1 = a := by
        rcases hm : right.filter (fun b => kr b == kl a) with _ | ⟨b, ms⟩ <;> rw [hm] at hp
        · simp at hp
          rw [hp]
        · rw [List.mem_map] at hp
          obtain ⟨x, hx, hxp⟩ := hp
          rw [← hxp]
      rw [hpa]
      exact List.mem_cons_self a as
    · exact List.mem_cons_of_mem _ (ih hp)

/-- A merged row whose key is covered by the right table carries a defined
(non-NaN) right column. -/
theorem leftMerge_snd_isSome {α β : Type} (left : List α) (right : List β) (kl : α → ℕ)
    (kr : β → ℕ) (p : α × Option β) (hp : p ∈ leftMerge left right kl kr)
    (hcov : ∃ b ∈ right, kr b = kl p.1) : p.2.isSome := by
  induction left with
  | nil => simp [leftMerge] at hp
  | cons a as ih =>
    simp only [leftMerge] at hp
    rw [List.mem_append] at hp
    rcases hp with hp | hp
    · rcases hm : right.filter (fun b => kr b == kl a) with _ | ⟨b, ms⟩ <;> rw [hm] at hp
      · simp at hp
        obtain ⟨b0, hb0, hk0⟩ := hcov
        have hmem : b0 ∈ right.filter (fun x => kr x == kl a) := by
          refine List.mem_filter.mpr ⟨hb0, ?_⟩
          have : kl p.1 = kl a := by rw [hp]
          simpa [this] using hk0
        rw [hm] at hmem
        simp at hmem
      · rw [List.mem_map] at hp
        obtain ⟨x, hx, hxp⟩ := hp
        rw [← hxp]
        rfl
    · exact ih hp

/-- Keys of a filter-mapped table whose producer preserves keys form a
sublist of the source keys. -/
theorem filterMap_keys_sublist {α β : Type} (l : List α) (f : α → Option β)
    (ka : α → ℕ) (kb : β → ℕ) (h : ∀ a b, f a = some b → kb b = ka a) :
    ((l.filterMap f).map kb).Sublist (l.map ka) := by
  induction l with
  | nil => simp
  | cons a as ih =>
    cases hfa : f a with
    | none =>
      simp only [List.filterMap_cons, hfa, List.map_cons]
      exact List.Sublist.cons _ ih
    | some b =>
      simp only [List.filterMap_cons, hfa, List.map_cons]
      rw [h a b hfa]
      exact List.Sublist.cons₂ _ ih

/-- The climate table has exactly the base-table keys, in order. -/
theorem getClimateData_keys (grids : List Grid) (fetch : ℕ → ClimateRec) :
    (getClimateData grids fetch).map ClimateRec.grid_id = grids.map Grid.grid_id := by
  rw [getClimateData, List.map_map]
  rfl

/-- The melt table has exactly the climate-table keys, in order. -/
theorem calculateMelt_keys (grids : List Grid) (glaciers : List GlacierFrag)
    (topo : List TopoRec) (climate : List ClimateRec) :
    (calculateMelt grids glaciers topo climate).map MeltRec.grid_id =
      climate.map ClimateRec.grid_id := by
  rw [calculateMelt, List.map_map]
  rfl

/-- The topography table keys form a sublist of the base-table keys. -/
theorem getTopography_keys_sublist (grids : List Grid) (fetch : ℕ → Option TopoRec) :
    ((getTopography grids fetch).map TopoRec.grid_id).Sublist (grids.map Grid.grid_id) := by
  rw [getTopography]
  apply filterMap_keys_sublist
  intro g t h
  cases hf : fetch g.grid_id with
  | none => rw [hf] at h; simp at h
  | some t0 =>
    rw [hf] at h
    simp only [Option.map_some', Option.some.injEq] at h
    rw [← h]

/-- A runoff record produced for a grid row carries that row's key. -/
theorem runoffRecOf_grid_id (topo : List TopoRec) (climate : List ClimateRec) (g : Grid)
    (rec : RunoffRec) (h : runoffRecOf topo climate g = some rec) :
    rec.grid_id = g.grid_id := by
  rcases hc : findClimate climate g.grid_id with _ | c <;> simp only [runoffRecOf, hc] at h
  · exact absurd h (by simp)
  · rw [Option.some.injEq] at h
    rw [← h]

/-- A risk record produced for a grid row carries that row's key. -/
theorem riskRecOf_grid_id (melt : List MeltRec) (runoff : List RunoffRec)
    (climate : List ClimateRec) (g : Grid) (rec : RiskRec)
    (h : riskRecOf melt runoff climate g = some rec) : rec.grid_id = g.grid_id := by
  rcases hc : findClimate climate g.grid_id with _ | c <;> simp only [riskRecOf, hc] at h
  · exact absurd h (by simp)
  · rw [Option.some.injEq] at h
    rw [← h]

/-- A projection record produced for a grid row carries that row's key. -/
theorem projRecOf_grid_id (melt : List MeltRec) (runoff : List RunoffRec)
    (climate : List ClimateRec) (g : Grid) (rec : ProjRec)
    (h : projRecOf melt runoff climate g = some rec) : rec.grid_id = g.grid_id := by
  rcases hc : findClimate climate g.grid_id with _ | c <;> simp only [projRecOf, hc] at h
  · exact absurd h (by simp)
  · rw [Option.some.injEq] at h
    rw [← h]

/-- Every base grid row has a climate record with its key. -/
theorem climate_covers (grids : List Grid) (fetch : ℕ → ClimateRec) (g : Grid)
    (hg : g ∈ grids) : ∃ c ∈ getClimateData grids fetch, c.grid_id = g.grid_id :=
  ⟨_, List.mem_map_of_mem _ hg, rfl⟩

/-- A covered key makes the climate lookup succeed. -/
theorem findClimate_isSome_of_covers (climate : List ClimateRec) (gid : ℕ)
    (h : ∃ c ∈ climate, c.grid_id = gid) : (findClimate climate gid).isSome := by
  obtain ⟨c, hc, he⟩ := h
  exact List.find?_isSome.mpr ⟨c, hc, by simpa using he⟩

/-- Every base grid row has a melt record with its key, provided the
climate table covers it. -/
theorem melt_covers (grids : List Grid) (glaciers : List GlacierFrag) (topo : List TopoRec)
    (climate : List ClimateRec) (g : Grid) (hg : ∃ c ∈ climate, c.grid_id = g.grid_id) :
    ∃ m ∈ calculateMelt grids glaciers topo climate, m.grid_id = g.grid_id := by
  obtain ⟨c, hc, he⟩ := hg
  refine ⟨meltRecOf grids glaciers topo c, List.mem_map_of_mem _ hc, ?_⟩
  exact (rfl : (meltRecOf grids glaciers topo c).grid_id = c.grid_id).trans he

/-- The runoff loop body succeeds exactly when the unit has a climate
record. -/
theorem runoffRecOf_isSome (topo : List TopoRec) (climate : List ClimateRec) (g : Grid)
    (h : (findClimate climate g.grid_id).isSome) :
    ∃ rec, runoffRecOf topo climate g = some rec := by
  obtain ⟨c, hc⟩ := Option.isSome_iff_exists.mp h
  exact ⟨_, by simp only [runoffRecOf, hc]; rfl⟩

/-- The risk loop body succeeds exactly when the unit has a climate
record. -/
theorem riskRecOf_isSome (melt : List MeltRec) (runoff : List RunoffRec)
    (climate : List ClimateRec) (g : Grid) (h : (findClimate climate g.grid_id).isSome) :
    ∃ rec, riskRecOf melt runoff climate g = some rec := by
  obtain ⟨c, hc⟩ := Option.isSome_iff_exists.mp h
  exact ⟨_, by simp only [riskRecOf, hc]; rfl⟩

/-- The projection loop body succeeds exactly when the unit has a climate
record. -/
theorem projRecOf_isSome (melt : List MeltRec) (runoff : List RunoffRec)
    (climate : List ClimateRec) (g : Grid) (h : (findClimate climate g.grid_id).isSome) :
    ∃ rec, projRecOf melt runoff climate g = some rec := by
  obtain ⟨c, hc⟩ := Option.isSome_iff_exists.mp h
  exact ⟨_, by simp only [projRecOf, hc]; rfl⟩

/-- Every base grid row with a climate record has a runoff record with its
key. -/
theorem runoff_covers (grids : List Grid) (topo : List TopoRec) (climate : List ClimateRec)
    (g : Grid) (hg : g ∈ grids) (hc : (findClimate climate g.grid_id).isSome) :
    ∃ r ∈ calculateRunoff grids topo climate, r.grid_id = g.grid_id := by
  obtain ⟨rec, hrec⟩ := runoffRecOf_isSome topo climate g hc
  exact ⟨rec, List.mem_filterMap.mpr ⟨g, hg, hrec⟩, runoffRecOf_grid_id _ _ _ _ hrec⟩

/-- Every base grid row with a climate record has a risk record with its
key. -/
theorem risk_covers (grids : List Grid) (melt : List MeltRec) (runoff : List RunoffRec)
    (climate : List ClimateRec) (g : Grid) (hg : g ∈ grids)
    (hc : (findClimate climate g.grid_id).isSome) :
    ∃ r ∈ calculateFloodRisk grids melt runoff climate, r.grid_id = g.grid_id := by
  obtain ⟨rec, hrec⟩ := riskRecOf_isSome melt runoff climate g hc
  exact ⟨rec, List.mem_filterMap.mpr ⟨g, hg, hrec⟩, riskRecOf_grid_id _ _ _ _ _ hrec⟩

/-- The runoff table keys form a sublist of the base-table keys. -/
theorem calculateRunoff_keys_sublist (grids : List Grid) (topo : List TopoRec)
    (climate : List ClimateRec) :
    ((calculateRunoff grids topo climate).map RunoffRec.grid_id).Sublist
      (grids.map Grid.grid_id) := by
  rw [calculateRunoff]
  exact filterMap_keys_sublist _ _ _ _ (fun g rec h => runoffRecOf_grid_id _ _ _ _ h)

/-- The risk table keys form a sublist of the base-table keys. -/
theorem calculateFloodRisk_keys_sublist (grids : List Grid) (melt : List MeltRec)
    (runoff : List RunoffRec) (climate : List ClimateRec) :
    ((calculateFloodRisk grids melt runoff climate).map RiskRec.grid_id).Sublist
      (grids.map Grid.grid_id) := by
  rw [calculateFloodRisk]
  exact filterMap_keys_sublist _ _ _ _ (fun g rec h => riskRecOf_grid_id _ _ _ _ _ h)

/-- The projection table keys form a sublist of the base-table keys. -/
theorem calculateProjectedRisk3d_keys_sublist (grids : List Grid) (melt : List MeltRec)
    (runoff : List RunoffRec) (climate : List ClimateRec) :
    ((calculateProjectedRisk3d grids melt runoff climate).map ProjRec.grid_id).Sublist
      (grids.map Grid.grid_id) := by
  rw [calculateProjectedRisk3d]
  exact filterMap_keys_sublist _ _ _ _ (fun g rec h => projRecOf_grid_id _ _ _ _ _ h)

/-- C2: when the base-table grid ids are pairwise distinct, the full
left-merge chain of `run_full_analysis` keeps every base grid id exactly
once and in order, and every merged row carries defined (non-missing) melt,
runoff and risk columns, because the climate stage covers every grid and
the downstream stages cover every grid with a climate record (absent melt
or runoff rows are replaced by the in-stage default 0 before scoring). -/
theorem c2_merge_unique_and_defined (grids : List Grid) (glaciers : List GlacierFrag)
    (topoFetch : ℕ → Option TopoRec) (climFetch : ℕ → ClimateRec)
    (hnd : (gridIds grids).Nodup) :
    mergedBaseIds (runFullAnalysisMerged grids glaciers topoFetch climFetch) =
      gridIds grids ∧
    ∀ r ∈ runFullAnalysisMerged grids glaciers topoFetch climFetch,
      (MergedRow.meltCol r).isSome ∧ (MergedRow.runoffCol r).isSome ∧
      (MergedRow.riskCol r).isSome := by
  rw [gridIds] at hnd
  have hndClim : ((getClimateData grids climFetch).map ClimateRec.grid_id).Nodup := by
    rw [getClimateData_keys]; exact hnd
  have hndTopo : ((getTopography grids topoFetch).map TopoRec.grid_id).Nodup :=
    List.Nodup.sublist (getTopography_keys_sublist grids topoFetch) hnd
  have hndMelt :
      ((pipelineMelt grids glaciers topoFetch climFetch).map MeltRec.grid_id).Nodup := by
    rw [pipelineMelt, calculateMelt_keys, getClimateData_keys]; exact hnd
  have hndRunoff :
      ((pipelineRunoff grids topoFetch climFetch).map RunoffRec.grid_id).Nodup :=
    List.Nodup.sublist
      (by rw [pipelineRunoff]; exact calculateRunoff_keys_sublist _ _ _) hnd
  have hndRisk :
      ((pipelineRisk grids glaciers topoFetch climFetch).map RiskRec.grid_id).Nodup :=
    List.Nodup.sublist
      (by rw [pipelineRisk]; exact calculateFloodRisk_keys_sublist _ _ _ _) hnd
  have hndProj :
      ((pipelineProj grids glaciers topoFetch climFetch).map ProjRec.grid_id).Nodup :=
    List.Nodup.sublist
      (by rw [pipelineProj]; exact calculateProjectedRisk3d_keys_sublist _ _ _ _) hnd
  constructor
  · show (runFullAnalysisMerged grids glaciers topoFetch climFetch).map
      (fun p => p.1.1.1.1.1.1.grid_id) = grids.map Grid.grid_id
    have e6 := leftMerge_map_key (mergedR5 grids glaciers topoFetch climFetch)
      (pipelineProj grids glaciers topoFetch climFetch)
      (fun p => p.1.1.1.1.1.grid_id) ProjRec.grid_id hndProj
    have e5 := leftMerge_map_key (mergedR4 grids glaciers topoFetch climFetch)
      (pipelineRisk grids glaciers topoFetch climFetch)
      (fun p => p.1.1.1.1.grid_id) RiskRec.grid_id hndRisk
    have e4 := leftMerge_map_key (mergedR3 grids glaciers topoFetch climFetch)
      (pipelineRunoff grids topoFetch climFetch)
      (fun p => p.1.1.1.grid_id) RunoffRec.grid_id hndRunoff
    have e3 := leftMerge_map_key (mergedR2 grids topoFetch climFetch)
      (pipelineMelt grids glaciers topoFetch climFetch)
      (fun p => p.1.1.grid_id) MeltRec.grid_id hndMelt
    have e2 := leftMerge_map_key (mergedR1 grids climFetch)
      (getTopography grids topoFetch) (fun p => p.1.grid_id) TopoRec.grid_id hndTopo
    have e1 := leftMerge_map_key grids (getClimateData grids climFetch)
      Grid.grid_id ClimateRec.grid_id hndClim
    exact e6.trans (e5.trans (e4.trans (e3.trans (e2.trans e1))))
  · intro r hr
    have hr5 : r.1 ∈ mergedR5 grids glaciers topoFetch climFetch :=
      leftMerge_mem_fst _ _ _ _ _ hr
    have hr4 : r.1.1 ∈ mergedR4 grids glaciers topoFetch climFetch :=
      leftMerge_mem_fst _ _ _ _ _ hr5
    have hr3 : r.1.1.1 ∈ mergedR3 grids glaciers topoFetch climFetch :=
      leftMerge_mem_fst _ _ _ _ _ hr4
    have hr2 : r.1.1.1.1 ∈ mergedR2 grids topoFetch climFetch :=
      leftMerge_mem_fst _ _ _ _ _ hr3
    have hr1 : r.1.1.1.1.1 ∈ mergedR1 grids climFetch :=
      leftMerge_mem_fst _ _ _ _ _ hr2
    have hg : r.1.1.1.1.1.1 ∈ grids :=
      leftMerge_mem_fst _ _ _ _ _ hr1
    have hclimCov := climate_covers grids climFetch _ hg
    have hcs : (findClimate (getClimateData grids climFetch)
        (r.1.1.1.1.1.1.grid_id)).isSome :=
      findClimate_isSome_of_covers _ _ hclimCov
    refine ⟨?_, ?_, ?_⟩
    · exact leftMerge_snd_isSome _ _ _ _ _ hr3
        (melt_covers grids glaciers (getTopography grids topoFetch)
          (getClimateData grids climFetch) _ hclimCov)
    · exact leftMerge_snd_isSome _ _ _ _ _ hr4
        (runoff_covers grids (getTopography grids topoFetch)
          (getClimateData grids climFetch) _ hg hcs)
    · exact leftMerge_snd_isSome _ _ _ _ _ hr5
        (risk_covers grids (pipelineMelt grids glaciers topoFetch climFetch)
          (pipelineRunoff grids topoFetch climFetch) (getClimateData grids climFetch)
          _ hg hcs)

/-- C2 witness: the uniqueness statement applied to the concrete two-row
base table with distinct ids. -/
theorem c2_merge_unique_and_defined_witness :
    mergedBaseIds (runFullAnalysisMerged witnessGrids [] witnessTopoFetch witnessClimFetch) =
      gridIds witnessGrids :=
  (c2_merge_unique_and_defined witnessGrids [] witnessTopoFetch witnessClimFetch
    (by decide)).1

end Evaqua
